import Mathlib

/-!
# Verification of the video-processing service core

Shallow embedding of the upload → transcode → download pipeline of the
`videoprocessing` repository (an Express/Node.js service), together with
proofs of the specification claims about it.

Embedded components (file names refer to the JavaScript source):

* `src/utils/errorUtils.js` — `createError`
* `src/middleware/errorHandler.js` — `errorHandler`
* `src/middleware/uploadMiddleware.js` — `fileFilter`, `uploadMiddleware`
  together with the multer storage/limits it configures
* `src/services/videoProcessor.js` — `processVideo`
* `src/controllers/videoController.js` — `processVideoController`,
  `getVideoController`
* `src/server.js` — the `express-rate-limit` options (`limiter`)

The filesystem is modelled as an explicit state (`FSState`): a set of file
paths and a set of directory paths, with deterministic `unlinkSync` /
`mkdirSync` (filesystem-level faults are not modelled except where the
source explicitly tolerates them, via the `unlinkInputFails` flag).
The ffmpeg subprocess is an opaque collaborator; its outcome is an input
(`FfmpegOutcome`), including whether a partial output file was created
before a failure.
-/

namespace VideoProc

/-! ## JavaScript string and env primitives used by the source -/

/-- JS `s.startsWith(pre-arg)`: true iff the second string is a leading
substring of the first. -/
def jsStartsWith (s p : String) : Bool :=
  p.toList.isPrefixOf s.toList

/-- The final path segment of a POSIX path, with trailing slashes ignored
(as Node's `path` module does). -/
def lastSegment (s : String) : List Char :=
  ((s.toList.reverse.dropWhile (fun c => c = '/')).takeWhile (fun c => c ≠ '/')).reverse

/-- Node's `path.extname`: the substring of the final path segment from its
last `.` to the end; empty when the segment has no `.`, when its only `.`
is the leading character (dotfiles), or when the segment is exactly `..`. -/
def extname (s : String) : String :=
  match lastSegment s with
  | [] => ""
  | c :: tail =>
    if c = '.' ∧ tail = ['.'] then ""
    else if tail.contains '.' then
      String.mk ('.' :: (tail.reverse.takeWhile (fun d => d ≠ '.')).reverse)
    else ""

/-- `path.dirname` for the paths this service builds (`dir ++ "/" ++ name`
with a slash-free final segment): everything before the last slash. -/
def dirnameOf (p : String) : String :=
  match p.toList.reverse.dropWhile (fun c => c ≠ '/') with
  | [] => "."
  | _ :: rest => String.mk rest.reverse

/-- The process environment: each configuration variable is either absent
(`none`) or a string, exactly as `process.env` presents them. -/
structure Env where
  nodeEnv : Option String := none
  port : Option String := none
  uploadDir : Option String := none
  processedDir : Option String := none
  maxFileSize : Option String := none
  allowedOrigins : Option String := none
  baseUrl : Option String := none
  apiKey : Option String := none
deriving DecidableEq

/-- JS `x || d` on an env string: `undefined` and the empty string are
falsy and give the default. -/
def jsOr (x : Option String) (d : String) : String :=
  match x with
  | some s => if s = "" then d else s
  | none => d

/-- JS `x || d` on an optional number: `undefined` and `0` are falsy. -/
def jsOrNat (x : Option Nat) (d : Nat) : Nat :=
  match x with
  | some n => if n = 0 then d else n
  | none => d

/-- Value of the leading decimal-digit run of a character list (helper for
`jsParseInt`). -/
def digitsVal : List Char → Nat → Nat
  | [], acc => acc
  | c :: cs, acc => if c.isDigit then digitsVal cs (10 * acc + (c.toNat - 48)) else acc

/-- JS `parseInt(s, 10)` restricted to the strings this service feeds it:
canonical decimal numerals (the wider NaN behaviour on digit-free input is
never reached, because empty strings are filtered out as falsy first). -/
def jsParseInt (s : String) : Nat :=
  digitsVal s.toList 0

/-- `parseInt(process.env.MAX_FILE_SIZE || 100000000, 10)` from
`src/middleware/uploadMiddleware.js`: the multer byte-size limit. -/
def maxFileSizeOf (env : Env) : Nat :=
  match env.maxFileSize with
  | some s => if s = "" then 100000000 else jsParseInt s
  | none => 100000000

/-- `process.env.BASE_URL || http-colon-slash-slash-localhost:${process.env.PORT || 3000}`
as computed in `src/controllers/videoController.js`. -/
def baseUrlOf (env : Env) : String :=
  jsOr env.baseUrl ("http://localhost:" ++ jsOr env.port "3000")

/-- The processed-artifact directory, `process.env.PROCESSED_DIR || 'processed'`
(the `path.resolve` against the application root is abstracted away: paths
are compared as the strings the service builds). -/
def processedDirOf (env : Env) : String :=
  jsOr env.processedDir "processed"

/-- The upload staging directory, `process.env.UPLOAD_DIR || 'uploads'`. -/
def uploadDirOf (env : Env) : String :=
  jsOr env.uploadDir "uploads"

/-! ## Errors -/

/-- A JS `Error` as this service uses it: always a message, and the
`statusCode` / `status` fields that `createError` attaches (absent on a
plain `new Error`). -/
structure JsErr where
  message : String
  statusCode : Option Nat
  status : Option String
deriving DecidableEq

/-- A plain `new Error(message)`, with no `statusCode` / `status` fields. -/
def newError (message : String) : JsErr :=
  { message := message, statusCode := none, status := none }

/-- `createError` from `src/utils/errorUtils.js`: attaches the status code
and sets `status` to `"fail"` exactly when the decimal rendering of the
code starts with the character `4`. -/
def createError (statusCode : Nat) (message : String) : JsErr :=
  { message := message
    statusCode := some statusCode
    status := some (if jsStartsWith (Nat.repr statusCode) "4" then "fail" else "error") }

/-! ## Responses and filesystem state -/

/-- The JSON bodies the service sends. -/
inductive RBody where
  | errBody (status message : String)
  | processOk (videoId downloadUrl message : String)
  | getOk (videoId downloadUrl filename : String)
deriving DecidableEq

/-- An HTTP response: status code plus JSON body. -/
inductive HttpResponse where
  | json (httpStatus : Nat) (body : RBody)
deriving DecidableEq

/-- Whether a response is an error rendering (as opposed to a 200 payload). -/
def HttpResponse.isErrorResponse : HttpResponse → Bool
  | .json _ (.errBody _ _) => true
  | _ => false

/-- Filesystem state: the existing regular files and directories, by path. -/
structure FSState where
  files : List String
  dirs : List String
deriving DecidableEq

/-- `fs.existsSync` on a regular file path. -/
def existsFile (fs : FSState) (p : String) : Bool :=
  fs.files.contains p

/-- `fs.unlinkSync`: the path no longer denotes an existing file. -/
def unlinkSync (fs : FSState) (p : String) : FSState :=
  { fs with files := fs.files.filter (fun q => q != p) }

/-- `fs.mkdirSync(d, recursive)` (parent chains are not tracked: only the
directory the source subsequently checks). -/
def mkdirSyncRec (fs : FSState) (d : String) : FSState :=
  { fs with dirs := d :: fs.dirs }

/-- A file staged by multer: its path in the staging directory and the
client-supplied original name (`req.file.path` / `req.file.originalname`). -/
structure StagedFile where
  path : String
  originalname : String
deriving DecidableEq

/-! ## Error-handling middleware (`src/middleware/errorHandler.js`) -/

/-- The response the error handler renders: `err.statusCode || 500`,
`err.status || 'error'`, `err.message || 'Something went wrong'`. -/
def errorHandlerRender (err : JsErr) : HttpResponse :=
  .json (jsOrNat err.statusCode 500)
    (.errBody (jsOr err.status "error") (jsOr (some err.message) "Something went wrong"))

/-- The full error handler: before responding it deletes the staged upload
still recorded on the request, if that file exists. -/
def errorHandler (err : JsErr) (reqFile : Option StagedFile) (fs : FSState) :
    HttpResponse × FSState :=
  let fs1 :=
    match reqFile with
    | some f => if existsFile fs f.path then unlinkSync fs f.path else fs
    | none => fs
  (errorHandlerRender err, fs1)

/-! ## Transcoder (`src/services/videoProcessor.js`) -/

/-- Outcome of the ffmpeg subprocess, an opaque collaborator: success, or
an error event (non-zero exit or launch failure) with its diagnostic text
and whether a partial output file had been created by then. -/
inductive FfmpegOutcome where
  | success
  | failure (diag : String) (partialOutput : Bool)
deriving DecidableEq

/-- The `if (!fs.existsSync(outputDir)) fs.mkdirSync(outputDir, recursive)`
prologue of `processVideo`. -/
def ensureOutputDir (fs : FSState) (d : String) : FSState :=
  if fs.dirs.contains d then fs else mkdirSyncRec fs d

/-- `processVideo(inputPath, outputPath)`: ensures the output directory
exists, rejects with a 400 error if the input file is missing, then runs
ffmpeg; on success the output file exists and the promise resolves with
`outputPath`; on an ffmpeg error any partially created output is deleted
and the promise rejects with a 500 error carrying the diagnostic. -/
def processVideo (fs : FSState) (inputPath outputPath : String) (ffmpeg : FfmpegOutcome) :
    Except JsErr String × FSState :=
  let fs0 := ensureOutputDir fs (dirnameOf outputPath)
  if !existsFile fs0 inputPath then
    (.error (createError 400 "Input video file not found"), fs0)
  else
    match ffmpeg with
    | .success => (.ok outputPath, { fs0 with files := outputPath :: fs0.files })
    | .failure diag partialOutput =>
      let fsErr := if partialOutput then { fs0 with files := outputPath :: fs0.files } else fs0
      let fsClean := if existsFile fsErr outputPath then unlinkSync fsErr outputPath else fsErr
      (.error (createError 500 ("Error processing video: " ++ diag)), fsClean)

/-! ## Upload middleware (`src/middleware/uploadMiddleware.js`) -/

/-- The fixed MIME-type allow-list. -/
def allowedMimeTypes : List String :=
  ["video/mp4", "video/mpeg", "video/quicktime", "video/x-msvideo",
   "video/x-ms-wmv", "video/webm", "video/ogg"]

/-- `fileFilter`: accept when the declared MIME type is on the allow-list,
otherwise reject with a 400 error. -/
def fileFilter (mimetype : String) : Except JsErr Unit :=
  if allowedMimeTypes.contains mimetype then .ok ()
  else .error (createError 400 "Only video files are allowed")

/-- The megabyte figure interpolated into the size-limit message:
JS `process.env.MAX_FILE_SIZE / 1000000` (an unset variable divides to
`NaN`; a numeral divides exactly — this model renders the quotient for
numerals whose quotient is integral, which the size-limit theorem assumes). -/
def maxSizeMBText (env : Env) : String :=
  match env.maxFileSize with
  | some s => Nat.repr (jsParseInt s / 1000000)
  | none => "NaN"

/-- A file arriving in the multipart field, before staging: the declared
original name, declared MIME type, and byte size. -/
structure IncomingFile where
  originalname : String
  mimetype : String
  size : Nat
deriving DecidableEq

/-- `uploadMiddleware` composed with the multer pipeline it configures:
no field gives no `req.file` (and no error — the controller rejects later);
the file filter runs when the part's headers arrive, before any bytes are
written to staging; past the filter, exceeding `limits.fileSize` aborts the
write, discards the partial staging file, and surfaces `LIMIT_FILE_SIZE`,
which the middleware maps to a 400 error with the megabyte message;
otherwise the bytes land in the staging directory under
`uuid ++ extname(originalname)` per the disk-storage config, and `stagedId`
stands for that uuid draw. -/
def uploadMiddleware (env : Env) (reqFile : Option IncomingFile) (stagedId : String)
    (fs : FSState) : Except JsErr (Option StagedFile) × FSState :=
  match reqFile with
  | none => (.ok none, fs)
  | some f =>
    match fileFilter f.mimetype with
    | .error e => (.error e, fs)
    | .ok _ =>
      if f.size > maxFileSizeOf env then
        (.error (createError 400
          ("File too large. Maximum size is " ++ maxSizeMBText env ++ "MB")), fs)
      else
        let stagedPath := uploadDirOf env ++ "/" ++ (stagedId ++ extname f.originalname)
        (.ok (some ⟨stagedPath, f.originalname⟩),
         { fs with files := stagedPath :: fs.files })

/-! ## Controllers (`src/controllers/videoController.js`) -/

/-- The artifact path the process controller builds:
`{processedDir}/{videoId}{extname(originalname)}`. -/
def outputPathOf (env : Env) (videoId originalname : String) : String :=
  processedDirOf env ++ "/" ++ (videoId ++ extname originalname)

/-- `processVideoController`, composed with the `errorHandler` that
`next(err)` routes every failure to. `videoId` stands for the `uuidv4()`
draw; `unlinkInputFails` models `fs.unlinkSync` throwing during the
post-transcode cleanup of the staged input, which the controller catches
and deliberately ignores. -/
def processVideoController (env : Env) (reqFile : Option StagedFile) (videoId : String)
    (ffmpeg : FfmpegOutcome) (unlinkInputFails : Bool) (fs : FSState) :
    HttpResponse × FSState :=
  match reqFile with
  | none => errorHandler (createError 400 "No video file uploaded") none fs
  | some videoFile =>
    let fileExtension := extname videoFile.originalname
    let sanitizedFilename := videoId ++ fileExtension
    let outputPath := processedDirOf env ++ "/" ++ sanitizedFilename
    match processVideo fs videoFile.path outputPath ffmpeg with
    | (.error e, fs1) => errorHandler e (some videoFile) fs1
    | (.ok _, fs1) =>
      let fs2 := if unlinkInputFails then fs1 else unlinkSync fs1 videoFile.path
      let downloadUrl := baseUrlOf env ++ "/downloads/" ++ sanitizedFilename
      (.json 200 (.processOk videoId downloadUrl "Video processed successfully"), fs2)

/-- `getVideoController`: `listing` is `none` when
`fs.existsSync(processedDir)` is false, otherwise the `fs.readdirSync`
entries in directory order. The first entry whose name starts with the
requested id is served; zero matches give a 404. -/
def getVideoController (env : Env) (id : String) (listing : Option (List String)) :
    HttpResponse :=
  match listing with
  | none => errorHandlerRender (createError 500 "Processed directory not found")
  | some files =>
    match files.find? (fun file => jsStartsWith file id) with
    | none => errorHandlerRender (createError 404 "Video not found")
    | some videoFile =>
      .json 200 (.getOk id (baseUrlOf env ++ "/downloads/" ++ videoFile) videoFile)

/-! ## Rate limiter options (`src/server.js`) -/

/-- The `express-rate-limit` option record. -/
structure RateLimitOptions where
  windowMs : Nat
  max : Nat
  message : String
deriving DecidableEq

/-- `process.env.NODE_ENV === 'production'`. -/
def isProduction (env : Env) : Bool :=
  env.nodeEnv == some "production"

/-- The limiter applied to all `/api` routes: a hard-coded 15-minute
window, a per-IP maximum of 60 requests in production and 100 otherwise,
and a fixed over-limit message. -/
def limiter (env : Env) : RateLimitOptions :=
  { windowMs := 15 * 60 * 1000
    max := if isProduction env then 60 else 100
    message := "Too many requests from this IP, please try again later" }

end VideoProc

namespace VideoProc

/-! ## Helper lemmas -/

/-- A character list is a Boolean prefix of itself followed by anything. -/
theorem isPrefixOf_append_self (l t : List Char) : l.isPrefixOf (l ++ t) = true := by
  induction l with
  | nil => simp [List.isPrefixOf]
  | cons c cs ih => simp [List.isPrefixOf, ih]

/-- `a ++ b` starts with `a` in the JS sense. -/
theorem jsStartsWith_append_self (a b : String) : jsStartsWith (a ++ b) a = true :=
  isPrefixOf_append_self a.toList b.toList

/-- `contains = false` gives non-membership. -/
theorem not_mem_of_contains_eq_false {l : List String} {p : String}
    (h : l.contains p = false) : p ∉ l := by
  simpa using h

/-- After `unlinkSync fs p`, the path `p` is gone. -/
theorem not_mem_unlink_self (fs : FSState) (p : String) : p ∉ (unlinkSync fs p).files := by
  simp [unlinkSync, List.mem_filter]

/-- `unlinkSync` never adds files. -/
theorem not_mem_unlink_of_not_mem {fs : FSState} {p : String} (q : String)
    (h : p ∉ fs.files) : p ∉ (unlinkSync fs q).files := by
  simp only [unlinkSync, List.mem_filter]
  intro hc
  exact h hc.1

/-- A file distinct from the unlinked one survives `unlinkSync`. -/
theorem mem_unlink_of_mem_ne {fs : FSState} {p q : String} (h : p ∈ fs.files)
    (hne : p ≠ q) : p ∈ (unlinkSync fs q).files := by
  simp [unlinkSync, List.mem_filter, h, hne]

/-- Creating the output directory leaves the regular files untouched. -/
theorem ensureOutputDir_files (fs : FSState) (d : String) :
    (ensureOutputDir fs d).files = fs.files := by
  unfold ensureOutputDir
  split <;> rfl

/-- `find?` returns the first entry satisfying the test, in list order. -/
theorem find?_append_first (p : String → Bool) (l1 l2 : List String) (f : String)
    (hf : p f = true) (hl : ∀ g ∈ l1, p g = false) :
    (l1 ++ f :: l2).find? p = some f := by
  induction l1 with
  | nil => simp [List.find?, hf]
  | cons a as ih =>
    simp only [List.cons_append, List.find?]
    rw [hl a (by simp)]
    exact ih (fun g hg => hl g (by simp [hg]))

/-- The decimal rendering of every code in 400–499 starts with the digit 4. -/
theorem jsStartsWith_repr_of_4xx : ∀ n, n < 100 →
    jsStartsWith (Nat.repr (400 + n)) "4" = true := by decide

/-- The decimal rendering of every code in 500–599 does not start with 4. -/
theorem jsStartsWith_repr_of_5xx : ∀ n, n < 100 →
    jsStartsWith (Nat.repr (500 + n)) "4" = false := by decide

/-- Whatever the error, the error handler renders an error body. -/
theorem errorHandlerRender_isError (e : JsErr) :
    (errorHandlerRender e).isErrorResponse = true := rfl

/-- The error handler always deletes the staged upload recorded on the request. -/
theorem errorHandler_cleanup (err : JsErr) (f : StagedFile) (fs : FSState) :
    f.path ∉ (errorHandler err (some f) fs).2.files := by
  simp only [errorHandler]
  by_cases h : existsFile fs f.path
  · simp only [h, if_true]
    exact not_mem_unlink_self fs f.path
  · simp only [h, if_false]
    exact not_mem_of_contains_eq_false (by simpa [existsFile] using h)

/-- The error handler never creates files. -/
theorem errorHandler_not_mem {fs : FSState} {p : String} (err : JsErr)
    (reqFile : Option StagedFile) (h : p ∉ fs.files) :
    p ∉ (errorHandler err reqFile fs).2.files := by
  simp only [errorHandler]
  match reqFile with
  | none => exact h
  | some f =>
    by_cases hc : existsFile fs f.path
    · simp only [hc, if_true]
      exact not_mem_unlink_of_not_mem f.path h
    · simpa only [hc, if_false] using h

/-- `processVideo` with a present input and a successful subprocess: resolves
with the output path, and the output file now exists. -/
theorem processVideo_success_eq (fs : FSState) (i o : String)
    (hin : fs.files.contains i = true) :
    processVideo fs i o .success =
      (.ok o, { ensureOutputDir fs (dirnameOf o) with files := o :: fs.files }) := by
  simp only [processVideo, existsFile, ensureOutputDir_files, hin, Bool.not_true,
    Bool.false_eq_true, if_false]

/-- `processVideo` with a present input and a failing subprocess rejects with
the 500 error carrying the diagnostic. -/
theorem processVideo_failure_result (fs : FSState) (i o d : String) (b : Bool)
    (hin : fs.files.contains i = true) :
    (processVideo fs i o (.failure d b)).1 =
      .error (createError 500 ("Error processing video: " ++ d)) := by
  simp only [processVideo, existsFile, ensureOutputDir_files, hin, Bool.not_true,
    Bool.false_eq_true, if_false]

/-- A failing subprocess never lets `processVideo` resolve. -/
theorem processVideo_failure_ne_ok (fs : FSState) (i o d : String) (b : Bool) (x : String) :
    (processVideo fs i o (.failure d b)).1 ≠ .ok x := by
  simp only [processVideo]
  by_cases hin : existsFile (ensureOutputDir fs (dirnameOf o)) i
  · simp [hin]
  · simp [hin]

/-- If no file sat at the output path beforehand, none remains after a
failing `processVideo`. -/
theorem processVideo_failure_not_mem_output (fs : FSState) (i o d : String) (b : Bool)
    (hout : fs.files.contains o = false) :
    o ∉ (processVideo fs i o (.failure d b)).2.files := by
  simp only [processVideo]
  by_cases hin : existsFile (ensureOutputDir fs (dirnameOf o)) i
  · simp only [hin, Bool.not_true, Bool.false_eq_true, if_false]
    cases b with
    | true =>
      have hcl : existsFile { ensureOutputDir fs (dirnameOf o) with
          files := o :: (ensureOutputDir fs (dirnameOf o)).files } o = true := by
        simp [existsFile, List.contains]
      simp only [if_true, hcl]
      exact not_mem_unlink_self _ o
    | false =>
      have hcl : existsFile (ensureOutputDir fs (dirnameOf o)) o = false := by
        simpa [existsFile, ensureOutputDir_files] using hout
      simp only [if_false, hcl, Bool.false_eq_true]
      exact not_mem_of_contains_eq_false (by simpa [ensureOutputDir_files] using hout)
  · simp only [hin, Bool.not_false, if_true]
    exact not_mem_of_contains_eq_false (by simpa [ensureOutputDir_files] using hout)

/-- When the input exists (the subprocess was actually launched), no file
remains at the output path after a failing `processVideo` — the error path
deletes a pre-existing or partially written output. -/
theorem processVideo_failure_not_mem_output_of_input (fs : FSState) (i o d : String)
    (b : Bool) (hin : fs.files.contains i = true) :
    o ∉ (processVideo fs i o (.failure d b)).2.files := by
  by_cases ho : fs.files.contains o = true
  · simp only [processVideo, existsFile, ensureOutputDir_files, hin, Bool.not_true,
      Bool.false_eq_true, if_false]
    cases b with
    | true =>
      have hx : (o :: fs.files).contains o = true := by simp [List.contains]
      simp only [eq_self_iff_true, if_true, hx]
      exact not_mem_unlink_self _ o
    | false =>
      simp only [Bool.false_eq_true, if_false, ensureOutputDir_files, ho,
        eq_self_iff_true, if_true]
      exact not_mem_unlink_self _ o
  · exact processVideo_failure_not_mem_output fs i o d b (by simpa using ho)

/-- Full characterization of a successful `POST /api/process` run. -/
theorem processVideoController_success_eq (env : Env) (file : StagedFile)
    (videoId : String) (unlinkInputFails : Bool) (fs : FSState)
    (hin : fs.files.contains file.path = true) :
    processVideoController env (some file) videoId .success unlinkInputFails fs =
      (.json 200 (.processOk videoId
          (baseUrlOf env ++ "/downloads/" ++ (videoId ++ extname file.originalname))
          "Video processed successfully"),
       if unlinkInputFails then
         { ensureOutputDir fs (dirnameOf (outputPathOf env videoId file.originalname)) with
             files := outputPathOf env videoId file.originalname :: fs.files }
       else unlinkSync
         { ensureOutputDir fs (dirnameOf (outputPathOf env videoId file.originalname)) with
             files := outputPathOf env videoId file.originalname :: fs.files } file.path) := by
  simp only [processVideoController, outputPathOf,
    processVideo_success_eq fs file.path _ hin]

/-! ## Claim theorems -/

/-- C1: For every successful POST /api/process request, the artifact is stored
under `{videoId}{extname(originalname)}` in the processed directory, the
response's downloadUrl is the configured base URL followed by `/downloads/`
followed by that filename, and the artifact's filename begins with its
video id. -/
theorem c1_artifact_named_by_video_id (env : Env) (file : StagedFile) (videoId : String)
    (fs : FSState)
    (hin : fs.files.contains file.path = true)
    (hne : file.path ≠ outputPathOf env videoId file.originalname) :
    (processVideoController env (some file) videoId .success false fs).1 =
      .json 200 (.processOk videoId
        (baseUrlOf env ++ "/downloads/" ++ (videoId ++ extname file.originalname))
        "Video processed successfully") ∧
    outputPathOf env videoId file.originalname ∈
      (processVideoController env (some file) videoId .success false fs).2.files ∧
    jsStartsWith (videoId ++ extname file.originalname) videoId = true := by
  rw [processVideoController_success_eq env file videoId false fs hin]
  refine ⟨rfl, ?_, jsStartsWith_append_self videoId (extname file.originalname)⟩
  simp only [if_false, Bool.false_eq_true]
  exact mem_unlink_of_mem_ne (by simp) (Ne.symm hne)

/-- Witness for C1 at a concrete upload. -/
theorem c1_witness :
    (processVideoController {} (some ⟨"uploads/u1.mp4", "movie.mp4"⟩) "vid1" .success false
        ⟨["uploads/u1.mp4"], []⟩).1 =
      .json 200 (.processOk "vid1"
        (baseUrlOf {} ++ "/downloads/" ++ ("vid1" ++ extname "movie.mp4"))
        "Video processed successfully") ∧
    outputPathOf {} "vid1" "movie.mp4" ∈
      (processVideoController {} (some ⟨"uploads/u1.mp4", "movie.mp4"⟩) "vid1" .success false
        ⟨["uploads/u1.mp4"], []⟩).2.files ∧
    jsStartsWith ("vid1" ++ extname "movie.mp4") "vid1" = true :=
  c1_artifact_named_by_video_id {} ⟨"uploads/u1.mp4", "movie.mp4"⟩ "vid1"
    ⟨["uploads/u1.mp4"], []⟩ (by decide) (by decide)

/-- C2: With filesystem operations succeeding, the staged upload never
survives the request — the controller deletes it after a successful
transcode, and the error handler deletes it on every failure path — and
after a failed transcode neither the staged input nor a partial output file
remains on disk, the response being an error rendering. -/
theorem c2_no_staged_file_survives (env : Env) (file : StagedFile) (videoId : String)
    (ffmpeg : FfmpegOutcome) (fs : FSState)
    (hout : fs.files.contains (outputPathOf env videoId file.originalname) = false) :
    file.path ∉ (processVideoController env (some file) videoId ffmpeg false fs).2.files ∧
    (∀ diag part, ffmpeg = .failure diag part →
      outputPathOf env videoId file.originalname ∉
        (processVideoController env (some file) videoId ffmpeg false fs).2.files ∧
      (processVideoController env (some file) videoId ffmpeg false fs).1.isErrorResponse
        = true) := by
  constructor
  · rcases hpv : processVideo fs file.path
        (processedDirOf env ++ "/" ++ (videoId ++ extname file.originalname)) ffmpeg
      with ⟨res, fs1⟩
    cases res with
    | error e =>
      simp only [processVideoController, hpv]
      exact errorHandler_cleanup e file fs1
    | ok x =>
      simp only [processVideoController, hpv, if_false, Bool.false_eq_true]
      exact not_mem_unlink_self fs1 file.path
  · intro diag part hff
    subst hff
    rcases hpv : processVideo fs file.path
        (processedDirOf env ++ "/" ++ (videoId ++ extname file.originalname))
        (.failure diag part)
      with ⟨res, fs1⟩
    cases res with
    | ok x =>
      exact absurd (by rw [hpv]) (processVideo_failure_ne_ok fs file.path _ diag part x)
    | error e =>
      have h1 : outputPathOf env videoId file.originalname ∉ fs1.files := by
        have := processVideo_failure_not_mem_output fs file.path
          (processedDirOf env ++ "/" ++ (videoId ++ extname file.originalname)) diag part
          (by simpa [outputPathOf] using hout)
        rwa [hpv] at this
      constructor
      · simp only [processVideoController, hpv]
        exact errorHandler_not_mem e (some file) (by simpa [outputPathOf] using h1)
      · simp only [processVideoController, hpv, errorHandler]
        exact errorHandlerRender_isError e

/-- Witness for C2 at a concrete failing request. -/
theorem c2_witness :
    ("uploads/u3.avi" : String) ∉ (processVideoController {}
        (some ⟨"uploads/u3.avi", "raw.avi"⟩) "vid3" (.failure "boom" true) false
        ⟨["uploads/u3.avi"], []⟩).2.files ∧
    (∀ diag part, (FfmpegOutcome.failure "boom" true) = .failure diag part →
      outputPathOf {} "vid3" "raw.avi" ∉ (processVideoController {}
          (some ⟨"uploads/u3.avi", "raw.avi"⟩) "vid3" (.failure "boom" true) false
          ⟨["uploads/u3.avi"], []⟩).2.files ∧
      (processVideoController {} (some ⟨"uploads/u3.avi", "raw.avi"⟩) "vid3"
          (.failure "boom" true) false ⟨["uploads/u3.avi"], []⟩).1.isErrorResponse = true) :=
  c2_no_staged_file_survives {} ⟨"uploads/u3.avi", "raw.avi"⟩ "vid3" (.failure "boom" true)
    ⟨["uploads/u3.avi"], []⟩ (by decide)

/-- C3: GET /api/video/:id — a missing artifact directory gives a 500-class
error; an existing directory with no entry starting with the id gives a 404
with message "Video not found"; otherwise the response is 200 with the
first matching entry in directory-listing order as filename, and the
download URL composed from it. -/
theorem c3_get_video_resolution :
    (∀ (env : Env) (id : String), getVideoController env id none =
        .json 500 (.errBody "error" "Processed directory not found")) ∧
    (∀ (env : Env) (id : String) (files : List String),
      (∀ f ∈ files, jsStartsWith f id = false) →
      getVideoController env id (some files) =
        .json 404 (.errBody "fail" "Video not found")) ∧
    (∀ (env : Env) (id : String) (l1 l2 : List String) (f : String),
      jsStartsWith f id = true → (∀ g ∈ l1, jsStartsWith g id = false) →
      getVideoController env id (some (l1 ++ f :: l2)) =
        .json 200 (.getOk id (baseUrlOf env ++ "/downloads/" ++ f) f)) := by
  refine ⟨fun env id => rfl, fun env id files h => ?_, fun env id l1 l2 f hf hl => ?_⟩
  · have hn : files.find? (fun file => jsStartsWith file id) = none := by
      rw [List.find?_eq_none]
      intro x hx
      simp [h x hx]
    simp only [getVideoController, hn]
    rfl
  · simp only [getVideoController, find?_append_first (fun file => jsStartsWith file id)
      l1 l2 f hf hl]

/-- Witness for C3 at concrete listings. -/
theorem c3_witness :
    (getVideoController {} "nonexistent-id" none =
      .json 500 (.errBody "error" "Processed directory not found")) ∧
    (getVideoController {} "nonexistent-id" (some ["a1.mp4", "b2.webm"]) =
      .json 404 (.errBody "fail" "Video not found")) ∧
    (getVideoController {} "b2" (some (["a1.mp4"] ++ "b2.webm" :: ["b2.mp4"])) =
      .json 200 (.getOk "b2" (baseUrlOf {} ++ "/downloads/" ++ "b2.webm") "b2.webm")) :=
  ⟨c3_get_video_resolution.1 {} "nonexistent-id",
   c3_get_video_resolution.2.1 {} "nonexistent-id" ["a1.mp4", "b2.webm"] (by decide),
   c3_get_video_resolution.2.2 {} "b2" ["a1.mp4"] ["b2.mp4"] "b2.webm" (by decide)
     (by decide)⟩

/-- C4: When the transcoder subprocess fails, `processVideo` rejects with a
500 error whose message carries the subprocess diagnostic, deletes the
output path if a file exists there, and never resolves successfully. -/
theorem c4_transcode_failure_rejects_and_cleans (fs : FSState)
    (input output diag : String) (part : Bool)
    (hin : fs.files.contains input = true) :
    (processVideo fs input output (.failure diag part)).1 =
      .error (createError 500 ("Error processing video: " ++ diag)) ∧
    output ∉ (processVideo fs input output (.failure diag part)).2.files ∧
    ∀ x, (processVideo fs input output (.failure diag part)).1 ≠ .ok x :=
  ⟨processVideo_failure_result fs input output diag part hin,
   processVideo_failure_not_mem_output_of_input fs input output diag part hin,
   fun x => processVideo_failure_ne_ok fs input output diag part x⟩

/-- Witness for C4 at a concrete failing transcode. -/
theorem c4_witness :
    (processVideo ⟨["uploads/in.mp4"], []⟩ "uploads/in.mp4" "processed/out.mp4"
        (.failure "Invalid data found when processing input" true)).1 =
      .error (createError 500
        ("Error processing video: " ++ "Invalid data found when processing input")) ∧
    ("processed/out.mp4" : String) ∉ (processVideo ⟨["uploads/in.mp4"], []⟩ "uploads/in.mp4"
        "processed/out.mp4" (.failure "Invalid data found when processing input" true)).2.files ∧
    ∀ x, (processVideo ⟨["uploads/in.mp4"], []⟩ "uploads/in.mp4" "processed/out.mp4"
        (.failure "Invalid data found when processing input" true)).1 ≠ .ok x :=
  c4_transcode_failure_rejects_and_cleans ⟨["uploads/in.mp4"], []⟩ "uploads/in.mp4"
    "processed/out.mp4" "Invalid data found when processing input" true (by decide)

/-- C5: A declared MIME type outside the allow-list is rejected with a 400
error and without writing anything to the staging directory; a declared
type inside the list passes the filter. -/
theorem c5_mime_allowlist (env : Env) (f : IncomingFile) (stagedId : String) (fs : FSState) :
    (f.mimetype ∉ allowedMimeTypes →
      uploadMiddleware env (some f) stagedId fs =
        (.error (createError 400 "Only video files are allowed"), fs)) ∧
    (f.mimetype ∈ allowedMimeTypes → fileFilter f.mimetype = .ok ()) := by
  constructor
  · intro h
    have hc : allowedMimeTypes.contains f.mimetype = false := by simpa using h
    simp only [uploadMiddleware, fileFilter, hc, Bool.false_eq_true, if_false]
  · intro h
    have hc : allowedMimeTypes.contains f.mimetype = true := by simpa using h
    simp only [fileFilter, hc, if_true]

/-- Witness for C5 at a rejected and at an accepted MIME type. -/
theorem c5_witness :
    (uploadMiddleware {} (some ⟨"notes.txt", "text/plain", 10⟩) "id1" ⟨[], []⟩ =
      (.error (createError 400 "Only video files are allowed"), ⟨[], []⟩)) ∧
    (fileFilter "video/mp4" = .ok ()) :=
  ⟨(c5_mime_allowlist {} ⟨"notes.txt", "text/plain", 10⟩ "id1" ⟨[], []⟩).1 (by decide),
   (c5_mime_allowlist {} ⟨"notes.txt", "video/mp4", 10⟩ "id1" ⟨[], []⟩).2 (by decide)⟩

/-- C6: With MAX_FILE_SIZE configured to the decimal numeral of `n` (with
the quotient by 10^6 integral, where Nat division matches the JS float
division the message uses), an upload of an allowed type whose size exceeds
`n` fails with a 400 error whose message reports the limit in megabytes,
and nothing is staged. -/
theorem c6_payload_too_large (env : Env) (f : IncomingFile) (stagedId : String)
    (fs : FSState) (s : String) (n : Nat)
    (henv : env.maxFileSize = some s) (hs : s ≠ "") (hparse : jsParseInt s = n)
    (hdiv : 1000000 ∣ n) (hmime : f.mimetype ∈ allowedMimeTypes) (hsize : f.size > n) :
    uploadMiddleware env (some f) stagedId fs =
      (.error (createError 400
        ("File too large. Maximum size is " ++ Nat.repr (n / 1000000) ++ "MB")), fs) := by
  have hc : allowedMimeTypes.contains f.mimetype = true := by simpa using hmime
  have hmax : maxFileSizeOf env = n := by
    simp [maxFileSizeOf, henv, hs, hparse]
  have htext : maxSizeMBText env = Nat.repr (n / 1000000) := by
    simp [maxSizeMBText, henv, hparse]
  simp only [uploadMiddleware, fileFilter, hc, if_true, hmax, hsize, htext]

/-- Witness for C6 at the deployment default limit of 100 MB. -/
theorem c6_witness :
    uploadMiddleware { maxFileSize := some "100000000" }
        (some ⟨"big.mp4", "video/mp4", 100000001⟩) "id2" ⟨[], []⟩ =
      (.error (createError 400
        ("File too large. Maximum size is " ++ Nat.repr (100000000 / 1000000) ++ "MB")),
       ⟨[], []⟩) :=
  c6_payload_too_large { maxFileSize := some "100000000" }
    ⟨"big.mp4", "video/mp4", 100000001⟩ "id2" ⟨[], []⟩ "100000000" 100000000
    (by rfl) (by decide) (by decide) (by decide) (by decide) (by decide)

/-- C7: Every error from `createError` rendered by the error handler carries
status "fail" for a 4xx code and "error" for a 5xx code together with its
message, and a plain error without a status code renders as HTTP 500 with
status "error". (Nonempty messages: the handler substitutes a fallback text
for an empty message.) -/
theorem c7_status_field_mapping :
    (∀ (code : Nat) (msg : String), 400 ≤ code → code ≤ 499 → msg ≠ "" →
      errorHandlerRender (createError code msg) = .json code (.errBody "fail" msg)) ∧
    (∀ (code : Nat) (msg : String), 500 ≤ code → code ≤ 599 → msg ≠ "" →
      errorHandlerRender (createError code msg) = .json code (.errBody "error" msg)) ∧
    (∀ msg : String, msg ≠ "" →
      errorHandlerRender (newError msg) = .json 500 (.errBody "error" msg)) := by
  refine ⟨fun code msg h4 h4b hm => ?_, fun code msg h5 h5b hm => ?_, fun msg hm => ?_⟩
  · have hr : jsStartsWith (Nat.repr code) "4" = true := by
      have := jsStartsWith_repr_of_4xx (code - 400) (by omega)
      rwa [show 400 + (code - 400) = code by omega] at this
    simp [errorHandlerRender, createError, jsOr, jsOrNat, hr, hm,
      show code ≠ 0 by omega]
  · have hr : jsStartsWith (Nat.repr code) "4" = false := by
      have := jsStartsWith_repr_of_5xx (code - 500) (by omega)
      rwa [show 500 + (code - 500) = code by omega] at this
    simp [errorHandlerRender, createError, jsOr, jsOrNat, hr, hm,
      show code ≠ 0 by omega]
  · simp [errorHandlerRender, newError, jsOr, jsOrNat, hm]

/-- Witness for C7 at the service's own error values. -/
theorem c7_witness :
    (errorHandlerRender (createError 404 "Video not found") =
      .json 404 (.errBody "fail" "Video not found")) ∧
    (errorHandlerRender (createError 500 "Processed directory not found") =
      .json 500 (.errBody "error" "Processed directory not found")) ∧
    (errorHandlerRender (newError "boom") = .json 500 (.errBody "error" "boom")) :=
  ⟨c7_status_field_mapping.1 404 "Video not found" (by decide) (by decide) (by decide),
   c7_status_field_mapping.2.1 500 "Processed directory not found" (by decide) (by decide)
     (by decide),
   c7_status_field_mapping.2.2 "boom" (by decide)⟩

/-- C8, counterexample: the claim that both the rate-limit window duration
and the maximum request count are configurable is false — the window does
not depend on the environment at all (it is hard-coded to 15 minutes). -/
theorem c8_counterexample :
    ¬ ((∃ e1 e2 : Env, (limiter e1).windowMs ≠ (limiter e2).windowMs) ∧
       (∃ e1 e2 : Env, (limiter e1).max ≠ (limiter e2).max)) := by
  rintro ⟨⟨e1, e2, hw⟩, -⟩
  exact hw rfl

/-- C8, amended: the rate ceiling on /api routes uses a fixed 15-minute
window; the per-window maximum is 60 when NODE_ENV is production and 100
otherwise; over-limit requests receive the fixed textual message. -/
theorem c8_fixed_window_rate_limit (env : Env) :
    (limiter env).windowMs = 15 * 60 * 1000 ∧
    (limiter env).max = (if isProduction env then 60 else 100) ∧
    (limiter env).message = "Too many requests from this IP, please try again later" :=
  ⟨rfl, rfl, rfl⟩

/-- C9: Even when deleting the staged input file fails after a successful
transcode, the controller still responds 200 with the success payload. -/
theorem c9_success_despite_unlink_failure (env : Env) (file : StagedFile)
    (videoId : String) (unlinkInputFails : Bool) (fs : FSState)
    (hin : fs.files.contains file.path = true) :
    (processVideoController env (some file) videoId .success unlinkInputFails fs).1 =
      .json 200 (.processOk videoId
        (baseUrlOf env ++ "/downloads/" ++ (videoId ++ extname file.originalname))
        "Video processed successfully") := by
  rw [processVideoController_success_eq env file videoId unlinkInputFails fs hin]

/-- Witness for C9 with the cleanup unlink failing. -/
theorem c9_witness :
    (processVideoController {} (some ⟨"uploads/u2.mp4", "clip.mov"⟩) "vid2" .success true
        ⟨["uploads/u2.mp4"], []⟩).1 =
      .json 200 (.processOk "vid2"
        (baseUrlOf {} ++ "/downloads/" ++ ("vid2" ++ extname "clip.mov"))
        "Video processed successfully") :=
  c9_success_despite_unlink_failure {} ⟨"uploads/u2.mp4", "clip.mov"⟩ "vid2" true
    ⟨["uploads/u2.mp4"], []⟩ (by decide)

/-- C10: When a lookup matches, the response's videoId field is the
client-supplied id echoed verbatim — also when it is only a leading part of
the artifact's generated identifier — and only the filename field carries
the full stored name. -/
theorem c10_get_video_echoes_requested_id (env : Env) (id : String) (files : List String)
    (f : String) (hfind : files.find? (fun file => jsStartsWith file id) = some f) :
    getVideoController env id (some files) =
      .json 200 (.getOk id (baseUrlOf env ++ "/downloads/" ++ f) f) := by
  simp only [getVideoController, hfind]

/-- Witness for C10: the id is a strict leading part of the stored name. -/
theorem c10_witness :
    getVideoController {} "abc" (some ["abc123-uuid.mp4"]) =
      .json 200 (.getOk "abc" (baseUrlOf {} ++ "/downloads/" ++ "abc123-uuid.mp4")
        "abc123-uuid.mp4") :=
  c10_get_video_echoes_requested_id {} "abc" ["abc123-uuid.mp4"] "abc123-uuid.mp4" (by decide)

end VideoProc
